import Mathlib

/-!
# Verification of the SageMaker endpoint-metrics pipeline

A shallow embedding of `src/sagemaker_metrics.py` (AWS-CUR-MCP-Server).
The module retrieves utilization and invocation metrics for a SageMaker
endpoint from CloudWatch, pivots each list of datapoints into a wide
table keyed by (Timestamp, EndpointName), and outer-merges the two
tables.

Modelling conventions:
* `datetime` timestamps are modelled as `Int`; metric values (Python
  floats) are modelled as `ℚ` (exact arithmetic; no claim here depends
  on floating-point rounding).
* The CloudWatch client is a parameter: a function from a query to an
  `Except`, so a backend that raises is a backend returning `.error`.
* Pydantic validation of a raw datapoint (required `Timestamp`,
  required numeric `Average`/`Value`) is modelled with `Option` fields
  on the raw shapes; a missing/ill-typed field is `none` and validation
  returns `.error .validationError`, matching pydantic raising.
* `logger.warning` calls that the spec cares about are modelled by a
  `List String` of warning messages paired with each result;
  `logger.debug`/`logger.info` calls are pure tracing and are omitted.
* pandas row order (pivot sorts its index, outer merge sorts join keys)
  is abstracted: groups and merge output are produced in
  first-occurrence order. No claim concerns row order, only key sets,
  row counts and cell contents.
* `UtilizationMetricRecord` (field `Average`) and
  `InvocationMetricRecord` (field `Value`) have the same shape
  (endpoint, timestamp, metric name, number); both are modelled by the
  single structure `MetricRecord` with value field `value`.
-/

/-- The error taxonomy of the Python code: the CloudWatch client raising
(network/throttling/bad request), pydantic raising a `ValidationError`,
and the unguarded `response['MetricDataResults'][0]` raising
`IndexError`. -/
inductive Err where
  | backendError
  | validationError
  | indexError
  deriving DecidableEq, Repr

/-- `EndpointMetricParams` (pydantic `BaseModel`): endpoint name, variant
name, start/end time, and `period: int = 60`. The model declares no
validator, so any field values of the right types are accepted. -/
structure EndpointMetricParams where
  endpoint_name : String
  variant_name : String
  start_time : Int
  end_time : Int
  period : Int := 60
  deriving DecidableEq, Repr

/-- One CloudWatch request as the Python code assembles it: namespace,
metric name, the two dimensions, time window, period, and the requested
statistic (`'Statistics': ['Average']` for `get_metric_statistics`,
`'Stat': stat` inside the `MetricDataQueries` entry for
`get_metric_data`). -/
structure MetricQuery where
  Namespace : String
  MetricName : String
  Dimensions : List (String × String)
  StartTime : Int
  EndTime : Int
  Period : Int
  Stat : String
  deriving DecidableEq, Repr

/-- A raw datapoint of a `get_metric_statistics` response, before
pydantic validation by `UtilizationDatapoint`: `none` models a missing
or ill-typed field. -/
structure RawUtilizationDatapoint where
  Timestamp : Option Int
  Average : Option ℚ
  deriving DecidableEq, Repr

/-- `get_metric_statistics` response: `response['Datapoints']`. -/
structure StatisticsResponse where
  Datapoints : List RawUtilizationDatapoint
  deriving DecidableEq, Repr

/-- One entry of `response['MetricDataResults']` of a `get_metric_data`
response: the two parallel sequences `Timestamps` and `Values`, whose
elements are validated one pair at a time by `InvocationDatapoint`. -/
structure MetricDataResult where
  Timestamps : List (Option Int)
  Values : List (Option ℚ)
  deriving DecidableEq, Repr

/-- `get_metric_data` response: `response['MetricDataResults']`. -/
structure DataResponse where
  MetricDataResults : List MetricDataResult
  deriving DecidableEq, Repr

/-- The normalized per-datapoint unit appended to `data` before
`pd.DataFrame(data)`: `UtilizationMetricRecord` /
`InvocationMetricRecord` (endpoint, timestamp, metric name, numeric
value). -/
structure MetricRecord where
  EndpointName : String
  Timestamp : Int
  MetricName : String
  value : ℚ
  deriving DecidableEq, Repr

/-- One row of a wide metric table: the (Timestamp, EndpointName) key
plus the metric cells; a metric name absent from `cells` is a
null/missing cell. -/
structure Row where
  ts : Int
  ep : String
  cells : List (String × ℚ)
  deriving DecidableEq, Repr

/-- A pandas DataFrame in wide-table shape: the column labels (always
led by `Timestamp` and `EndpointName` in this module) and the rows. -/
structure WideTable where
  cols : List String
  rows : List Row
  deriving DecidableEq, Repr

/-- `df.empty`: no rows (the frames built here have no rows exactly when
pandas reports them empty). -/
def WideTable.isEmpty (t : WideTable) : Bool :=
  t.rows.isEmpty

/-- The (Timestamp, EndpointName) key of a row. -/
def rowKey (r : Row) : Int × String :=
  (r.ts, r.ep)

/-- Cell lookup by column label: `none` is a null cell. -/
def cellValue (r : Row) (c : String) : Option ℚ :=
  (r.cells.find? (fun p => p.1 = c)).map (fun p => p.2)

/-- The six fixed utilization metric names. -/
def utilizationMetricNames : List String :=
  ["CPUUtilization", "MemoryUtilization", "DiskUtilization",
   "InferenceLatency", "GPUUtilization", "GPUMemoryUtilization"]

/-- The five fixed invocation metric names. -/
def invocationMetricNames : List String :=
  ["Invocations", "Invocation4XXErrors", "Invocation5XXErrors",
   "ModelLatency", "InvocationsPerInstance"]

/-- The `get_metric_statistics` request built by
`_get_endpoint_utilization_metrics` for one metric name: namespace
`/aws/sagemaker/Endpoints`, the EndpointName/VariantName dimensions, the
window, the period, and `Statistics=['Average']`. -/
def utilizationQuery (endpoint_name variant_name : String)
    (start_time end_time period : Int) (metric_name : String) : MetricQuery :=
  { Namespace := "/aws/sagemaker/Endpoints"
    MetricName := metric_name
    Dimensions := [("EndpointName", endpoint_name), ("VariantName", variant_name)]
    StartTime := start_time
    EndTime := end_time
    Period := period
    Stat := "Average" }

/-- The per-metric statistic chosen by `_get_endpoint_invocation_metrics`:
`'Average'` if the metric is `ModelLatency`, else `'Sum'`. -/
def invocationStat (metric_name : String) : String :=
  if metric_name = "ModelLatency" then "Average" else "Sum"

/-- The `MetricDataQueries` entry built by
`_get_endpoint_invocation_metrics` for one metric name: namespace
`AWS/SageMaker`, the same two dimensions, the window, the period, and
the per-metric `Stat`. -/
def invocationQuery (endpoint_name variant_name : String)
    (start_time end_time period : Int) (metric_name : String) : MetricQuery :=
  { Namespace := "AWS/SageMaker"
    MetricName := metric_name
    Dimensions := [("EndpointName", endpoint_name), ("VariantName", variant_name)]
    StartTime := start_time
    EndTime := end_time
    Period := period
    Stat := invocationStat metric_name }

/-- `UtilizationDatapoint(**datapoint_raw)` followed by building the
`UtilizationMetricRecord`: pydantic raises (`.error`) when `Timestamp`
or `Average` is missing/ill-typed, otherwise the record is tagged with
the endpoint and the metric name. -/
def validateUtilizationDatapoint (endpoint_name metric_name : String)
    (d : RawUtilizationDatapoint) : Except Err MetricRecord :=
  match d.Timestamp, d.Average with
  | some t, some a =>
      .ok { EndpointName := endpoint_name, Timestamp := t,
            MetricName := metric_name, value := a }
  | _, _ => .error .validationError

/-- Validation of every datapoint of one statistics response, in
response order. -/
def validateUtilizationDatapoints (endpoint_name metric_name : String) :
    List RawUtilizationDatapoint → Except Err (List MetricRecord)
  | [] => .ok []
  | d :: ds => do
      let r ← validateUtilizationDatapoint endpoint_name metric_name d
      let rs ← validateUtilizationDatapoints endpoint_name metric_name ds
      .ok (r :: rs)

/-- The `for metric_name in metrics` loop of
`_get_endpoint_utilization_metrics`: one `get_metric_statistics` call
per metric, each datapoint validated and appended to `data`. -/
def collectUtilizationRecords
    (client : MetricQuery → Except Err StatisticsResponse)
    (endpoint_name variant_name : String) (start_time end_time period : Int) :
    List String → Except Err (List MetricRecord)
  | [] => .ok []
  | m :: ms => do
      let resp ← client (utilizationQuery endpoint_name variant_name start_time end_time period m)
      let rs ← validateUtilizationDatapoints endpoint_name m resp.Datapoints
      let rest ← collectUtilizationRecords client endpoint_name variant_name start_time end_time period ms
      .ok (rs ++ rest)

/-- `InvocationDatapoint(Timestamp=..., Value=...)` on each pair of
`zip(timestamps, values)`, building `InvocationMetricRecord`s. Python
`zip` stops at the shorter sequence, which `List.zip` mirrors. -/
def validateInvocationPairs (endpoint_name metric_name : String) :
    List (Option Int × Option ℚ) → Except Err (List MetricRecord)
  | [] => .ok []
  | (some t, some v) :: ps => do
      let rs ← validateInvocationPairs endpoint_name metric_name ps
      .ok ({ EndpointName := endpoint_name, Timestamp := t,
             MetricName := metric_name, value := v } :: rs)
  | _ :: _ => .error .validationError

/-- The `for metric_name in metric_names` loop of
`_get_endpoint_invocation_metrics`: one `get_metric_data` call per
metric; `response['MetricDataResults'][0]` is read unguarded (an empty
list raises `IndexError`), its `Timestamps` and `Values` are zipped and
validated. -/
def collectInvocationRecords
    (client : MetricQuery → Except Err DataResponse)
    (endpoint_name variant_name : String) (start_time end_time period : Int) :
    List String → Except Err (List MetricRecord)
  | [] => .ok []
  | m :: ms => do
      let resp ← client (invocationQuery endpoint_name variant_name start_time end_time period m)
      match resp.MetricDataResults with
      | [] => .error .indexError
      | res :: _ => do
          let rs ← validateInvocationPairs endpoint_name m (res.Timestamps.zip res.Values)
          let rest ← collectInvocationRecords client endpoint_name variant_name start_time end_time period ms
          .ok (rs ++ rest)

/-- The distinct (Timestamp, EndpointName) keys of the record list, in
first-occurrence order (the pivot index; pandas additionally sorts it,
which only permutes rows). -/
def pivotKeys (data : List MetricRecord) : List (Int × String) :=
  (data.map (fun r => (r.Timestamp, r.EndpointName))).dedup

/-- The distinct metric names of the record list (the pivot columns). -/
def pivotCols (data : List MetricRecord) : List String :=
  (data.map (fun r => r.MetricName)).dedup

/-- Arithmetic mean, `pivot_table`'s default aggregation function. -/
def meanOf (l : List ℚ) : ℚ :=
  l.sum / l.length

/-- The values of all records for one (Timestamp, EndpointName) key and
one metric name (the group that `pivot_table` aggregates into one
cell). -/
def matchingValues (data : List MetricRecord) (k : Int × String) (m : String) : List ℚ :=
  (data.filter
    (fun r => r.Timestamp = k.1 ∧ r.EndpointName = k.2 ∧ r.MetricName = m)).map
      (fun r => r.value)

/-- The aggregated cell of the pivot for one key and one metric name:
the mean of all matching record values, or a null cell if no record
matches. -/
def pivotCell (data : List MetricRecord) (k : Int × String) (m : String) : Option ℚ :=
  if (matchingValues data k m).isEmpty then none
  else some (meanOf (matchingValues data k m))

/-- One row of the pivot output for one key. -/
def pivotRow (data : List MetricRecord) (k : Int × String) : Row :=
  { ts := k.1
    ep := k.2
    cells := (pivotCols data).filterMap
      (fun m => (pivotCell data k m).map (fun x => (m, x))) }

/-- `df.pivot_table(index=['Timestamp', 'EndpointName'],
columns='MetricName', values=...)` followed by `reset_index()` and
`rename_axis(None, axis=1)`: one row per distinct (Timestamp,
EndpointName) key, one column per distinct metric name, cells aggregated
by mean (the pandas default `aggfunc`). -/
def pivot_table (data : List MetricRecord) : WideTable :=
  { cols := ["Timestamp", "EndpointName"] ++ pivotCols data
    rows := (pivotKeys data).map (pivotRow data) }

/-- `_get_endpoint_utilization_metrics`: queries the six utilization
metrics with statistic `Average`, validates all datapoints; with zero
records it returns the empty frame with the fixed column schema and
warns; otherwise it pivots. -/
def _get_endpoint_utilization_metrics
    (client : MetricQuery → Except Err StatisticsResponse)
    (endpoint_name variant_name : String) (start_time end_time : Int)
    (period : Int := 60) : Except Err (WideTable × List String) := do
  let data ← collectUtilizationRecords client endpoint_name variant_name
    start_time end_time period utilizationMetricNames
  if data.isEmpty then
    .ok ({ cols := ["Timestamp", "EndpointName"] ++ utilizationMetricNames, rows := [] },
         ["No utilization datapoints found"])
  else
    .ok (pivot_table data, [])

/-- `_get_endpoint_invocation_metrics`: queries the five invocation
metrics (per-metric statistic), zips and validates each response's
parallel sequences; with zero records it returns the empty frame with
the fixed column schema and warns; otherwise it pivots. -/
def _get_endpoint_invocation_metrics
    (client : MetricQuery → Except Err DataResponse)
    (endpoint_name variant_name : String) (start_time end_time : Int)
    (period : Int := 60) : Except Err (WideTable × List String) := do
  let data ← collectInvocationRecords client endpoint_name variant_name
    start_time end_time period invocationMetricNames
  if data.isEmpty then
    .ok ({ cols := ["Timestamp", "EndpointName"] ++ invocationMetricNames, rows := [] },
         ["No invocation datapoints found"])
  else
    .ok (pivot_table data, [])

/-- Key equality of two rows: same Timestamp and same EndpointName. -/
def keyEq (r s : Row) : Bool :=
  r.ts = s.ts && r.ep = s.ep

/-- Combination of a left row with a matching right row: the key plus
the cells of both sides. -/
def combineRows (r s : Row) : Row :=
  { ts := r.ts, ep := r.ep, cells := r.cells ++ s.cells }

/-- `pd.merge(u, v, on=['Timestamp', 'EndpointName'], how='outer')`:
every left row paired with each key-matching right row (or kept alone
with the right side's columns null when no right row matches), followed
by the right rows whose key has no left match (left columns null).
Output columns: the join keys and left columns, then the right side's
non-key columns. pandas sorts the output by the join keys; order is
abstracted here. -/
def mergeOuter (u v : WideTable) : WideTable :=
  { cols := u.cols ++ v.cols.filter (fun c => c ≠ "Timestamp" && c ≠ "EndpointName")
    rows :=
      (u.rows.flatMap (fun r =>
        match v.rows.filter (fun s => keyEq r s) with
        | [] => [r]
        | ms => ms.map (fun s => combineRows r s))) ++
      v.rows.filter (fun s => !(u.rows.any (fun r => keyEq r s))) }

/-- The empty-frame decision ladder of `get_endpoint_metrics` (the
reconciler): both empty gives `pd.DataFrame()` (a frame with no columns)
and a warning; one side empty returns the other side unchanged and
warns; otherwise the outer merge. -/
def reconcile (utilization_metrics_df invocation_metrics_df : WideTable) :
    WideTable × List String :=
  if utilization_metrics_df.isEmpty && invocation_metrics_df.isEmpty then
    ({ cols := [], rows := [] }, ["No utilization or invocation metrics found"])
  else if utilization_metrics_df.isEmpty then
    (invocation_metrics_df,
     ["No utilization metrics found, returning only invocation metrics."])
  else if invocation_metrics_df.isEmpty then
    (utilization_metrics_df,
     ["No invocation metrics found, returning only utilization metrics."])
  else
    (mergeOuter utilization_metrics_df invocation_metrics_df, [])

/-- `get_endpoint_metrics(params)`: runs the utilization collector, then
the invocation collector, then the reconciler; the enclosing
`try/except Exception` converts any raised exception to `None`. -/
def get_endpoint_metrics
    (statClient : MetricQuery → Except Err StatisticsResponse)
    (dataClient : MetricQuery → Except Err DataResponse)
    (params : EndpointMetricParams) : Option WideTable :=
  match _get_endpoint_utilization_metrics statClient params.endpoint_name
      params.variant_name params.start_time params.end_time params.period with
  | .error _ => none
  | .ok (utilization_metrics_df, _) =>
    match _get_endpoint_invocation_metrics dataClient params.endpoint_name
        params.variant_name params.start_time params.end_time params.period with
    | .error _ => none
    | .ok (invocation_metrics_df, _) =>
      some (reconcile utilization_metrics_df invocation_metrics_df).1

/-! ## Test fixtures: concrete clients used by witnesses -/

/-- A client whose every statistics response has no datapoints. -/
def emptyStatClient : MetricQuery → Except Err StatisticsResponse :=
  fun _ => .ok { Datapoints := [] }

/-- A client whose every data response carries one result with empty
parallel sequences. -/
def emptyDataClient : MetricQuery → Except Err DataResponse :=
  fun _ => .ok { MetricDataResults := [{ Timestamps := [], Values := [] }] }

/-- A client whose every data response has an empty
`MetricDataResults` list. -/
def noResultsDataClient : MetricQuery → Except Err DataResponse :=
  fun _ => .ok { MetricDataResults := [] }

/-- A client that raises on every call (network/backend failure). -/
def failingDataClient : MetricQuery → Except Err DataResponse :=
  fun _ => .error .backendError

/-- A client whose every data response has two timestamps but a single
value: mismatched parallel-sequence lengths. -/
def mismatchDataClient : MetricQuery → Except Err DataResponse :=
  fun _ => .ok { MetricDataResults :=
    [{ Timestamps := [some 0, some 60], Values := [some 10] }] }

/-- A client returning two duplicate CPUUtilization datapoints for the
same timestamp (values 1 and 3) and nothing for the other metrics. -/
def dupStatClient : MetricQuery → Except Err StatisticsResponse :=
  fun q =>
    if q.MetricName = "CPUUtilization" then
      .ok { Datapoints := [{ Timestamp := some 0, Average := some 1 },
                           { Timestamp := some 0, Average := some 3 }] }
    else .ok { Datapoints := [] }

/-- Sample parameters for witnesses. -/
def testParams : EndpointMetricParams :=
  { endpoint_name := "ep", variant_name := "v", start_time := 0, end_time := 300 }

/-! ## Helper lemmas -/

theorem collectUtilizationRecords_of_empty
    (client : MetricQuery → Except Err StatisticsResponse)
    (h : ∀ q, client q = .ok { Datapoints := [] })
    (e v : String) (s t p : Int) (ms : List String) :
    collectUtilizationRecords client e v s t p ms = .ok [] := by
  induction ms with
  | nil => rfl
  | cons m ms ih =>
      rw [collectUtilizationRecords, h, ih]
      rfl

theorem collectInvocationRecords_of_empty
    (client : MetricQuery → Except Err DataResponse)
    (h : ∀ q, client q = .ok { MetricDataResults := [{ Timestamps := [], Values := [] }] })
    (e v : String) (s t p : Int) (ms : List String) :
    collectInvocationRecords client e v s t p ms = .ok [] := by
  induction ms with
  | nil => rfl
  | cons m ms ih =>
      rw [collectInvocationRecords, h, ih]
      rfl

theorem utilization_empty_of_empty
    (client : MetricQuery → Except Err StatisticsResponse)
    (h : ∀ q, client q = .ok { Datapoints := [] })
    (e v : String) (s t p : Int) :
    _get_endpoint_utilization_metrics client e v s t p =
      .ok ({ cols := ["Timestamp", "EndpointName"] ++ utilizationMetricNames, rows := [] },
           ["No utilization datapoints found"]) := by
  rw [_get_endpoint_utilization_metrics,
      collectUtilizationRecords_of_empty client h]
  rfl

theorem invocation_empty_of_empty
    (client : MetricQuery → Except Err DataResponse)
    (h : ∀ q, client q = .ok { MetricDataResults := [{ Timestamps := [], Values := [] }] })
    (e v : String) (s t p : Int) :
    _get_endpoint_invocation_metrics client e v s t p =
      .ok ({ cols := ["Timestamp", "EndpointName"] ++ invocationMetricNames, rows := [] },
           ["No invocation datapoints found"]) := by
  rw [_get_endpoint_invocation_metrics,
      collectInvocationRecords_of_empty client h]
  rfl

/-! ## Claims -/

/-- Claim C6: the aggregation statistic chosen per metric name is
fixed: every utilization query requests `Average`; among the invocation
queries, `ModelLatency` uses `Average` while `Invocations`,
`Invocation4XXErrors`, `Invocation5XXErrors` and
`InvocationsPerInstance` use `Sum`. -/
theorem claim_C6_statistic_choice (e v : String) (s t p : Int) :
    (∀ m : String, (utilizationQuery e v s t p m).Stat = "Average") ∧
    (invocationQuery e v s t p "ModelLatency").Stat = "Average" ∧
    (invocationQuery e v s t p "Invocations").Stat = "Sum" ∧
    (invocationQuery e v s t p "Invocation4XXErrors").Stat = "Sum" ∧
    (invocationQuery e v s t p "Invocation5XXErrors").Stat = "Sum" ∧
    (invocationQuery e v s t p "InvocationsPerInstance").Stat = "Sum" := by
  refine ⟨fun m => rfl, ?_, ?_, ?_, ?_, ?_⟩ <;> rfl

/-- The schema-stable empty utilization frame. -/
def emptyUtilTable : WideTable :=
  { cols := ["Timestamp", "EndpointName"] ++ utilizationMetricNames, rows := [] }

/-- A one-row utilization table (CPUUtilization = 42 at t = 60). -/
def sampleUtilTable : WideTable :=
  { cols := ["Timestamp", "EndpointName", "CPUUtilization"],
    rows := [{ ts := 60, ep := "ep-1", cells := [("CPUUtilization", 42)] }] }

/-- A one-row invocation table (Invocations = 10 at t = 120). -/
def sampleInvTable : WideTable :=
  { cols := ["Timestamp", "EndpointName", "Invocations"],
    rows := [{ ts := 120, ep := "ep-1", cells := [("Invocations", 10)] }] }

/-- Claim C10: `EndpointMetricParams` performs no cross-field
validation: construction succeeds for every pair of times and every
integer period (start after end and zero/negative periods included),
`period` defaults to 60 when omitted, and such parameters flow through
`get_endpoint_metrics` unrejected. -/
theorem claim_C10_params_unvalidated (en vn : String) (st et p : Int) :
    (({ endpoint_name := en, variant_name := vn, start_time := st,
        end_time := et, period := p } : EndpointMetricParams).start_time = st ∧
     ({ endpoint_name := en, variant_name := vn, start_time := st,
        end_time := et, period := p } : EndpointMetricParams).end_time = et ∧
     ({ endpoint_name := en, variant_name := vn, start_time := st,
        end_time := et, period := p } : EndpointMetricParams).period = p) ∧
    ({ endpoint_name := en, variant_name := vn, start_time := st,
       end_time := et } : EndpointMetricParams).period = 60 ∧
    get_endpoint_metrics emptyStatClient emptyDataClient
      { endpoint_name := en, variant_name := vn, start_time := st,
        end_time := et, period := p } = some { cols := [], rows := [] } := by
  refine ⟨⟨rfl, rfl, rfl⟩, rfl, ?_⟩
  have h1 := utilization_empty_of_empty emptyStatClient (fun _ => rfl) en vn st et p
  have h2 := invocation_empty_of_empty emptyDataClient (fun _ => rfl) en vn st et p
  simp [get_endpoint_metrics, h1, h2, reconcile, WideTable.isEmpty]

/-- Claim C2: reconciliation with an empty table on either side returns
the non-empty side unchanged. -/
theorem claim_C2_reconcile_empty_identity (X E : WideTable)
    (hE : E.rows = []) (hX : X.rows ≠ []) :
    (reconcile E X).1 = X ∧ (reconcile X E).1 = X := by
  have hEb : E.isEmpty = true := by simp [WideTable.isEmpty, hE]
  have hXb : X.isEmpty = false := by
    simp [WideTable.isEmpty, List.isEmpty_iff]
    exact hX
  constructor <;> simp [reconcile, hEb, hXb]

/-- Witness for C2 at a concrete one-row table and the schema-stable
empty utilization frame. -/
theorem claim_C2_reconcile_empty_identity_witness :
    (reconcile emptyUtilTable sampleInvTable).1 = sampleInvTable ∧
    (reconcile sampleInvTable emptyUtilTable).1 = sampleInvTable :=
  claim_C2_reconcile_empty_identity sampleInvTable emptyUtilTable rfl
    (by simp [sampleInvTable])

/-- Claim C5: a backend with zero datapoints for every metric makes
each collector return (not fail) the empty frame whose columns are
exactly Timestamp, EndpointName plus the fixed metric names (six for
utilization, five for invocation), together with a warning. -/
theorem claim_C5_empty_stable_schema
    (statClient : MetricQuery → Except Err StatisticsResponse)
    (dataClient : MetricQuery → Except Err DataResponse)
    (e v : String) (s t p : Int)
    (hu : ∀ q, statClient q = .ok { Datapoints := [] })
    (hi : ∀ q, dataClient q =
      .ok { MetricDataResults := [{ Timestamps := [], Values := [] }] }) :
    _get_endpoint_utilization_metrics statClient e v s t p =
      .ok ({ cols := ["Timestamp", "EndpointName"] ++ utilizationMetricNames, rows := [] },
           ["No utilization datapoints found"]) ∧
    _get_endpoint_invocation_metrics dataClient e v s t p =
      .ok ({ cols := ["Timestamp", "EndpointName"] ++ invocationMetricNames, rows := [] },
           ["No invocation datapoints found"]) :=
  ⟨utilization_empty_of_empty statClient hu e v s t p,
   invocation_empty_of_empty dataClient hi e v s t p⟩

/-- Witness for C5 at the concrete all-empty clients. -/
theorem claim_C5_empty_stable_schema_witness :
    _get_endpoint_utilization_metrics emptyStatClient "ep" "v" 0 300 60 =
      .ok ({ cols := ["Timestamp", "EndpointName"] ++ utilizationMetricNames, rows := [] },
           ["No utilization datapoints found"]) ∧
    _get_endpoint_invocation_metrics emptyDataClient "ep" "v" 0 300 60 =
      .ok ({ cols := ["Timestamp", "EndpointName"] ++ invocationMetricNames, rows := [] },
           ["No invocation datapoints found"]) :=
  claim_C5_empty_stable_schema emptyStatClient emptyDataClient "ep" "v" 0 300 60
    (fun _ => rfl) (fun _ => rfl)

theorem get_endpoint_metrics_none_of_inv_error
    (statClient : MetricQuery → Except Err StatisticsResponse)
    (dataClient : MetricQuery → Except Err DataResponse)
    (params : EndpointMetricParams) (err : Err)
    (h : _get_endpoint_invocation_metrics dataClient params.endpoint_name
      params.variant_name params.start_time params.end_time params.period = .error err) :
    get_endpoint_metrics statClient dataClient params = none := by
  rw [get_endpoint_metrics]
  rcases hu : _get_endpoint_utilization_metrics statClient params.endpoint_name
      params.variant_name params.start_time params.end_time params.period with e | ok
  · rfl
  · rw [h]

/-- Claim C4: an exception in either collector is caught by
`get_endpoint_metrics` and converted to `None`; in particular a failure
of the invocation collector discards the utilization collector's
already-retrieved data. -/
theorem claim_C4_exceptions_become_none
    (statClient : MetricQuery → Except Err StatisticsResponse)
    (dataClient : MetricQuery → Except Err DataResponse)
    (params : EndpointMetricParams)
    (h : (∃ err, _get_endpoint_utilization_metrics statClient params.endpoint_name
           params.variant_name params.start_time params.end_time params.period = .error err) ∨
         (∃ err, _get_endpoint_invocation_metrics dataClient params.endpoint_name
           params.variant_name params.start_time params.end_time params.period = .error err)) :
    get_endpoint_metrics statClient dataClient params = none := by
  rcases h with ⟨err, hu⟩ | ⟨err, hi⟩
  · rw [get_endpoint_metrics, hu]
  · exact get_endpoint_metrics_none_of_inv_error statClient dataClient params err hi

/-- Witness for C4: the utilization collector succeeds (with data) but
the invocation client raises, and the whole call returns `None`. -/
theorem claim_C4_exceptions_become_none_witness :
    get_endpoint_metrics emptyStatClient failingDataClient testParams = none :=
  claim_C4_exceptions_become_none emptyStatClient failingDataClient testParams
    (Or.inr ⟨Err.backendError, rfl⟩)

/-- Counterexample to C7: with both collectors empty,
`get_endpoint_metrics` returns `pd.DataFrame()` — a table with no
columns at all, which does not carry the stable schema (it does not even
contain the `Timestamp` column). -/
theorem claim_C7_schema_stable_counterexample :
    get_endpoint_metrics emptyStatClient emptyDataClient testParams =
      some { cols := [], rows := [] } ∧
    "Timestamp" ∉ (WideTable.mk [] []).cols := by
  constructor
  · have h1 := utilization_empty_of_empty emptyStatClient (fun _ => rfl)
      testParams.endpoint_name testParams.variant_name testParams.start_time
      testParams.end_time testParams.period
    have h2 := invocation_empty_of_empty emptyDataClient (fun _ => rfl)
      testParams.endpoint_name testParams.variant_name testParams.start_time
      testParams.end_time testParams.period
    rw [get_endpoint_metrics, h1, h2]
    rfl
  · simp

/-- Claim C7 as amended: when both collectors return empty tables,
`get_endpoint_metrics` returns the schema-less empty table
`pd.DataFrame()` (no columns, no rows), not a schema-stable one. -/
theorem claim_C7_schema_stable_amended
    (statClient : MetricQuery → Except Err StatisticsResponse)
    (dataClient : MetricQuery → Except Err DataResponse)
    (params : EndpointMetricParams) (u v : WideTable) (wu wv : List String)
    (hu : _get_endpoint_utilization_metrics statClient params.endpoint_name
      params.variant_name params.start_time params.end_time params.period = .ok (u, wu))
    (hru : u.rows = [])
    (hi : _get_endpoint_invocation_metrics dataClient params.endpoint_name
      params.variant_name params.start_time params.end_time params.period = .ok (v, wv))
    (hrv : v.rows = []) :
    get_endpoint_metrics statClient dataClient params = some { cols := [], rows := [] } := by
  rw [get_endpoint_metrics, hu, hi]
  simp [reconcile, WideTable.isEmpty, hru, hrv]

/-- Witness for the amended C7 at the concrete all-empty clients. -/
theorem claim_C7_schema_stable_amended_witness :
    get_endpoint_metrics emptyStatClient emptyDataClient testParams =
      some { cols := [], rows := [] } :=
  claim_C7_schema_stable_amended emptyStatClient emptyDataClient testParams
    { cols := ["Timestamp", "EndpointName"] ++ utilizationMetricNames, rows := [] }
    { cols := ["Timestamp", "EndpointName"] ++ invocationMetricNames, rows := [] }
    ["No utilization datapoints found"] ["No invocation datapoints found"]
    (utilization_empty_of_empty emptyStatClient (fun _ => rfl)
      testParams.endpoint_name testParams.variant_name testParams.start_time
      testParams.end_time testParams.period)
    rfl
    (invocation_empty_of_empty emptyDataClient (fun _ => rfl)
      testParams.endpoint_name testParams.variant_name testParams.start_time
      testParams.end_time testParams.period)
    rfl

theorem collectInvocationRecords_cons
    (b : MetricQuery → Except Err DataResponse) (e v : String) (s t p : Int)
    (m : String) (ms : List String) :
    collectInvocationRecords b e v s t p (m :: ms) =
      (match (b (invocationQuery e v s t p m)).map
          (fun r => r.MetricDataResults.head?) with
      | .error err => .error err
      | .ok none => .error .indexError
      | .ok (some res) => do
          let rs ← validateInvocationPairs e m (res.Timestamps.zip res.Values)
          let rest ← collectInvocationRecords b e v s t p ms
          .ok (rs ++ rest)) := by
  rw [collectInvocationRecords]
  rcases b (invocationQuery e v s t p m) with err | r
  · rfl
  · obtain ⟨l⟩ := r
    cases l <;> rfl

theorem collectInvocationRecords_congr
    (b1 b2 : MetricQuery → Except Err DataResponse) (e v : String) (s t p : Int)
    (h : ∀ q, (b1 q).map (fun r => r.MetricDataResults.head?) =
              (b2 q).map (fun r => r.MetricDataResults.head?)) :
    ∀ ms, collectInvocationRecords b1 e v s t p ms =
          collectInvocationRecords b2 e v s t p ms := by
  intro ms
  induction ms with
  | nil => rfl
  | cons m ms ih =>
      rw [collectInvocationRecords_cons, collectInvocationRecords_cons,
          h (invocationQuery e v s t p m), ih]

theorem collectInvocationRecords_noResults
    (b : MetricQuery → Except Err DataResponse)
    (hb : ∀ q, b q = .ok { MetricDataResults := [] })
    (e v : String) (s t p : Int) (m : String) (ms : List String) :
    collectInvocationRecords b e v s t p (m :: ms) = .error .indexError := by
  rw [collectInvocationRecords_cons, hb]
  rfl

theorem invocation_indexError_of_noResults
    (b : MetricQuery → Except Err DataResponse)
    (hb : ∀ q, b q = .ok { MetricDataResults := [] })
    (e v : String) (s t p : Int) :
    _get_endpoint_invocation_metrics b e v s t p = .error .indexError := by
  rw [_get_endpoint_invocation_metrics]
  have hc : collectInvocationRecords b e v s t p invocationMetricNames =
      .error .indexError :=
    collectInvocationRecords_noResults b hb e v s t p "Invocations"
      ["Invocation4XXErrors", "Invocation5XXErrors", "ModelLatency",
       "InvocationsPerInstance"]
  rw [hc]
  rfl

/-- Claim C9: the invocation collector only reads the first element of
`MetricDataResults` (two clients whose responses agree on that first
element produce identical collector results), and an empty
`MetricDataResults` list makes the unguarded index access raise, so the
collector errors and `get_endpoint_metrics` returns `None`. -/
theorem claim_C9_first_result_only :
    (∀ (b1 b2 : MetricQuery → Except Err DataResponse) (e v : String) (s t p : Int),
      (∀ q, (b1 q).map (fun r => r.MetricDataResults.head?) =
            (b2 q).map (fun r => r.MetricDataResults.head?)) →
      _get_endpoint_invocation_metrics b1 e v s t p =
        _get_endpoint_invocation_metrics b2 e v s t p) ∧
    (∀ (b : MetricQuery → Except Err DataResponse) (e v : String) (s t p : Int),
      (∀ q, b q = .ok { MetricDataResults := [] }) →
      _get_endpoint_invocation_metrics b e v s t p = .error .indexError) ∧
    (∀ (statClient : MetricQuery → Except Err StatisticsResponse)
       (b : MetricQuery → Except Err DataResponse) (params : EndpointMetricParams),
      (∀ q, b q = .ok { MetricDataResults := [] }) →
      get_endpoint_metrics statClient b params = none) := by
  refine ⟨?_, ?_, ?_⟩
  · intro b1 b2 e v s t p h
    rw [_get_endpoint_invocation_metrics, _get_endpoint_invocation_metrics,
        collectInvocationRecords_congr b1 b2 e v s t p h invocationMetricNames]
  · intro b e v s t p hb
    exact invocation_indexError_of_noResults b hb e v s t p
  · intro statClient b params hb
    exact get_endpoint_metrics_none_of_inv_error statClient b params .indexError
      (invocation_indexError_of_noResults b hb params.endpoint_name
        params.variant_name params.start_time params.end_time params.period)

/-- A client whose every data response holds a single result. -/
def oneResultDataClient : MetricQuery → Except Err DataResponse :=
  fun _ => .ok { MetricDataResults := [{ Timestamps := [some 0], Values := [some 5] }] }

/-- A client whose every data response holds the same first result as
`oneResultDataClient` plus an extra second result. -/
def twoResultsDataClient : MetricQuery → Except Err DataResponse :=
  fun _ => .ok { MetricDataResults :=
    [{ Timestamps := [some 0], Values := [some 5] },
     { Timestamps := [some 999], Values := [some 77] }] }

/-- Witness for C9 at concrete clients: the extra second result is
ignored, and an empty result list errors and turns the whole call into
`None`. -/
theorem claim_C9_first_result_only_witness :
    _get_endpoint_invocation_metrics twoResultsDataClient "ep" "v" 0 300 60 =
      _get_endpoint_invocation_metrics oneResultDataClient "ep" "v" 0 300 60 ∧
    _get_endpoint_invocation_metrics noResultsDataClient "ep" "v" 0 300 60 =
      .error .indexError ∧
    get_endpoint_metrics emptyStatClient noResultsDataClient testParams = none :=
  ⟨claim_C9_first_result_only.1 twoResultsDataClient oneResultDataClient
     "ep" "v" 0 300 60 (fun _ => rfl),
   claim_C9_first_result_only.2.1 noResultsDataClient "ep" "v" 0 300 60 (fun _ => rfl),
   claim_C9_first_result_only.2.2 emptyStatClient noResultsDataClient testParams
     (fun _ => rfl)⟩

deriving instance DecidableEq for Except

theorem exceptBind_ok {α β : Type} (a : α) (f : α → Except Err β) :
    (Except.ok a : Except Err α) >>= f = f a := rfl

theorem exceptBind_error {α β : Type} (err : Err) (f : α → Except Err β) :
    (Except.error err : Except Err α) >>= f = Except.error err := rfl

theorem validateInvocationPairs_allSome (e m : String)
    (pairs : List (Option Int × Option ℚ))
    (h : ∀ pr ∈ pairs, pr.1.isSome ∧ pr.2.isSome) :
    ∃ rs, validateInvocationPairs e m pairs = .ok rs ∧ rs.length = pairs.length := by
  induction pairs with
  | nil => exact ⟨[], rfl, rfl⟩
  | cons pr ps ih =>
      obtain ⟨a, b⟩ := pr
      obtain ⟨h1, h2⟩ := h (a, b) (List.mem_cons_self _ _)
      obtain ⟨t, ht⟩ := Option.isSome_iff_exists.mp h1
      obtain ⟨x, hx⟩ := Option.isSome_iff_exists.mp h2
      subst ht hx
      obtain ⟨rs, hrs, hlen⟩ := ih (fun q hq => h q (List.mem_cons_of_mem _ hq))
      refine ⟨{ EndpointName := e, Timestamp := t, MetricName := m, value := x } :: rs,
              ?_, ?_⟩
      · simp only [validateInvocationPairs, hrs, exceptBind_ok]
      · simp [hlen]

theorem collectInvocationRecords_singleResult
    (b : MetricQuery → Except Err DataResponse)
    (ts' : List (Option Int)) (vs' : List (Option ℚ))
    (hb : ∀ q, b q = .ok { MetricDataResults := [{ Timestamps := ts', Values := vs' }] })
    (hok : ∀ pr ∈ ts'.zip vs', pr.1.isSome ∧ pr.2.isSome)
    (e v : String) (s t p : Int) (ms : List String) :
    ∃ recs, collectInvocationRecords b e v s t p ms = .ok recs ∧
      recs.length = ms.length * (ts'.zip vs').length := by
  induction ms with
  | nil => exact ⟨[], rfl, by simp⟩
  | cons m ms ih =>
      obtain ⟨rs, hrs, hlen1⟩ := validateInvocationPairs_allSome e m (ts'.zip vs') hok
      obtain ⟨rest, hrest, hlen2⟩ := ih
      refine ⟨rs ++ rest, ?_, ?_⟩
      · simp only [collectInvocationRecords, hb, exceptBind_ok, hrs, hrest]
      · simp only [List.length_append, List.length_cons, hlen1, hlen2, Nat.succ_mul]
        omega

/-- Counterexample to C3: a data-query response with two timestamps but
one value does not fail the collector with a validation error — the
collector succeeds, with the pair sequences silently truncated to the
single aligned pair. -/
theorem claim_C3_counterexample :
    _get_endpoint_invocation_metrics mismatchDataClient "ep" "v" 0 300 60 =
      .ok ({ cols := ["Timestamp", "EndpointName", "Invocations",
                      "Invocation4XXErrors", "Invocation5XXErrors",
                      "ModelLatency", "InvocationsPerInstance"],
             rows := [{ ts := 0, ep := "ep",
                        cells := [("Invocations", 10), ("Invocation4XXErrors", 10),
                                  ("Invocation5XXErrors", 10), ("ModelLatency", 10),
                                  ("InvocationsPerInstance", 10)] }] }, []) ∧
    _get_endpoint_invocation_metrics mismatchDataClient "ep" "v" 0 300 60 ≠
      .error Err.validationError := by
  have h : _get_endpoint_invocation_metrics mismatchDataClient "ep" "v" 0 300 60 =
      .ok ({ cols := ["Timestamp", "EndpointName", "Invocations",
                      "Invocation4XXErrors", "Invocation5XXErrors",
                      "ModelLatency", "InvocationsPerInstance"],
             rows := [{ ts := 0, ep := "ep",
                        cells := [("Invocations", 10), ("Invocation4XXErrors", 10),
                                  ("Invocation5XXErrors", 10), ("ModelLatency", 10),
                                  ("InvocationsPerInstance", 10)] }] }, []) := by
    simp [_get_endpoint_invocation_metrics, collectInvocationRecords, mismatchDataClient,
          validateInvocationPairs, exceptBind_ok, pivot_table, pivotKeys, pivotCols,
          pivotRow, pivotCell, matchingValues, meanOf, invocationMetricNames,
          List.dedup_cons_of_mem, List.dedup_cons_of_not_mem, List.dedup_nil, rowKey]
  refine ⟨h, ?_⟩
  rw [h]
  simp

/-- Claim C3 as amended: when the timestamp and value sequences have
different lengths (all present elements well-formed), the invocation
collector does not raise a validation error; `zip` silently truncates
each metric's pairs to the shorter length, the collector succeeds, and
it produces one record per truncated pair. -/
theorem claim_C3_zip_truncates
    (b : MetricQuery → Except Err DataResponse)
    (ts' : List (Option Int)) (vs' : List (Option ℚ))
    (hb : ∀ q, b q = .ok { MetricDataResults := [{ Timestamps := ts', Values := vs' }] })
    (hok : ∀ pr ∈ ts'.zip vs', pr.1.isSome ∧ pr.2.isSome)
    (e v : String) (s t p : Int) :
    (∃ recs, collectInvocationRecords b e v s t p invocationMetricNames = .ok recs ∧
       recs.length = invocationMetricNames.length * min ts'.length vs'.length) ∧
    (∃ out, _get_endpoint_invocation_metrics b e v s t p = .ok out) := by
  obtain ⟨recs, hrecs, hlen⟩ := collectInvocationRecords_singleResult b ts' vs' hb hok
    e v s t p invocationMetricNames
  refine ⟨⟨recs, hrecs, by rw [hlen, List.length_zip]⟩, ?_⟩
  by_cases hre : recs = []
  · subst hre
    exact ⟨({ cols := ["Timestamp", "EndpointName"] ++ invocationMetricNames, rows := [] },
            ["No invocation datapoints found"]),
           by simp [_get_endpoint_invocation_metrics, hrecs, exceptBind_ok]⟩
  · exact ⟨(pivot_table recs, []),
           by simp [_get_endpoint_invocation_metrics, hrecs, exceptBind_ok, hre]⟩

/-- Witness for the amended C3: the concrete mismatched client (two
timestamps, one value) yields five records — one truncated pair per
metric — and a successful collector call. -/
theorem claim_C3_zip_truncates_witness :
    (∃ recs, collectInvocationRecords mismatchDataClient "ep" "v" 0 300 60
        invocationMetricNames = .ok recs ∧
       recs.length = invocationMetricNames.length *
         min ([some 0, some 60] : List (Option Int)).length
             ([some 10] : List (Option ℚ)).length) ∧
    (∃ out, _get_endpoint_invocation_metrics mismatchDataClient "ep" "v" 0 300 60 =
      .ok out) :=
  claim_C3_zip_truncates mismatchDataClient [some 0, some 60] [some 10]
    (fun _ => rfl) (by decide) "ep" "v" 0 300 60

theorem pivot_table_keys (data : List MetricRecord) :
    (pivot_table data).rows.map rowKey = pivotKeys data := by
  show ((pivotKeys data).map (pivotRow data)).map rowKey = pivotKeys data
  rw [List.map_map]
  have h : (rowKey ∘ pivotRow data) = id := funext fun k => rfl
  rw [h, List.map_id]

theorem pivot_table_nodup_keys (data : List MetricRecord) :
    ((pivot_table data).rows.map rowKey).Nodup := by
  rw [pivot_table_keys]
  exact List.nodup_dedup _

theorem find_filterMap_pivot (data : List MetricRecord) (k : Int × String)
    (m : String) (l : List String) :
    ((l.filterMap (fun m2 => (pivotCell data k m2).map (fun x => (m2, x)))).find?
      (fun pr => pr.1 = m)).map (fun pr => pr.2) =
    if m ∈ l then pivotCell data k m else none := by
  induction l with
  | nil => simp
  | cons a l ih =>
      cases hres : pivotCell data k a with
      | none =>
          have hfa : (fun m2 => (pivotCell data k m2).map (fun x => (m2, x))) a = none := by
            simp [hres]
          rw [List.filterMap_cons_none
                (f := fun m2 => (pivotCell data k m2).map (fun x => (m2, x))) hfa, ih]
          by_cases hma : m = a
          · subst hma
            simp [hres]
          · simp [List.mem_cons, hma]
      | some x =>
          have hfa : (fun m2 => (pivotCell data k m2).map (fun x => (m2, x))) a =
              some (a, x) := by
            simp [hres]
          rw [List.filterMap_cons_some
                (f := fun m2 => (pivotCell data k m2).map (fun x => (m2, x))) hfa]
          by_cases hma : m = a
          · subst hma
            simp [List.find?_cons, hres]
          · rw [List.find?_cons_of_neg _ (by simp [Ne.symm hma]), ih]
            simp [List.mem_cons, hma]

theorem cellValue_pivotRow (data : List MetricRecord) (k : Int × String) (m : String) :
    cellValue (pivotRow data k) m =
      if m ∈ pivotCols data then pivotCell data k m else none := by
  rw [cellValue]
  exact find_filterMap_pivot data k m (pivotCols data)

theorem pivot_mean_of_matching (data : List MetricRecord) (k : Int × String)
    (m : String) (h : matchingValues data k m ≠ []) :
    ∃ row, row ∈ (pivot_table data).rows ∧ rowKey row = k ∧
      cellValue row m =
        some ((matchingValues data k m).sum / (matchingValues data k m).length) := by
  obtain ⟨x, hx⟩ := List.exists_mem_of_ne_nil _ h
  obtain ⟨r, hr, hrv⟩ := List.mem_map.mp hx
  obtain ⟨hrd, hpred⟩ := List.mem_filter.mp hr
  have hpred' : r.Timestamp = k.1 ∧ r.EndpointName = k.2 ∧ r.MetricName = m := by
    simpa using hpred
  obtain ⟨h1, h2, h3⟩ := hpred'
  have hk : k ∈ pivotKeys data := by
    rw [pivotKeys, List.mem_dedup, List.mem_map]
    exact ⟨r, hrd, by rw [h1, h2]⟩
  have hm : m ∈ pivotCols data := by
    rw [pivotCols, List.mem_dedup, List.mem_map]
    exact ⟨r, hrd, h3⟩
  refine ⟨pivotRow data k, List.mem_map_of_mem _ hk, rfl, ?_⟩
  rw [cellValue_pivotRow, if_pos hm, pivotCell,
      if_neg (by simp [List.isEmpty_iff, h]), meanOf]

theorem utilization_rows_nodup
    (client : MetricQuery → Except Err StatisticsResponse)
    (e v : String) (s t p : Int) (out : WideTable) (w : List String)
    (h : _get_endpoint_utilization_metrics client e v s t p = .ok (out, w)) :
    (out.rows.map rowKey).Nodup := by
  rw [_get_endpoint_utilization_metrics] at h
  cases hc : collectUtilizationRecords client e v s t p utilizationMetricNames with
  | error err => rw [hc] at h; exact absurd h (by simp [exceptBind_error])
  | ok data =>
      rw [hc] at h
      simp only [exceptBind_ok] at h
      split at h
      · simp only [Except.ok.injEq, Prod.mk.injEq] at h
        obtain ⟨hout, _⟩ := h
        subst hout
        simp
      · simp only [Except.ok.injEq, Prod.mk.injEq] at h
        obtain ⟨hout, _⟩ := h
        subst hout
        exact pivot_table_nodup_keys data

theorem invocation_rows_nodup
    (client : MetricQuery → Except Err DataResponse)
    (e v : String) (s t p : Int) (out : WideTable) (w : List String)
    (h : _get_endpoint_invocation_metrics client e v s t p = .ok (out, w)) :
    (out.rows.map rowKey).Nodup := by
  rw [_get_endpoint_invocation_metrics] at h
  cases hc : collectInvocationRecords client e v s t p invocationMetricNames with
  | error err => rw [hc] at h; exact absurd h (by simp [exceptBind_error])
  | ok data =>
      rw [hc] at h
      simp only [exceptBind_ok] at h
      split at h
      · simp only [Except.ok.injEq, Prod.mk.injEq] at h
        obtain ⟨hout, _⟩ := h
        subst hout
        simp
      · simp only [Except.ok.injEq, Prod.mk.injEq] at h
        obtain ⟨hout, _⟩ := h
        subst hout
        exact pivot_table_nodup_keys data

/-- Counterexample to C8: two duplicate CPUUtilization datapoints
(values 1 and 3) at the same timestamp/endpoint are silently combined by
the pivot into their mean 2 — the collector neither fails nor keeps the
last datapoint (3) nor the first (1). -/
theorem claim_C8_counterexample :
    _get_endpoint_utilization_metrics dupStatClient "ep" "v" 0 300 60 =
      .ok ({ cols := ["Timestamp", "EndpointName", "CPUUtilization"],
             rows := [{ ts := 0, ep := "ep",
                        cells := [("CPUUtilization", 2)] }] }, []) ∧
    (2 : ℚ) ≠ 1 ∧ (2 : ℚ) ≠ 3 := by
  refine ⟨?_, by norm_num, by norm_num⟩
  simp [_get_endpoint_utilization_metrics, collectUtilizationRecords, dupStatClient,
        validateUtilizationDatapoints, validateUtilizationDatapoint, exceptBind_ok,
        pivot_table, pivotKeys, pivotCols, pivotRow, pivotCell, matchingValues, meanOf,
        utilizationMetricNames, utilizationQuery, List.dedup_cons_of_mem,
        List.dedup_cons_of_not_mem, List.dedup_nil, rowKey]
  norm_num

/-- Two duplicate records for the same metric, timestamp and endpoint
(values 1 and 3). -/
def dupRecords : List MetricRecord :=
  [{ EndpointName := "ep", Timestamp := 0, MetricName := "CPUUtilization", value := 1 },
   { EndpointName := "ep", Timestamp := 0, MetricName := "CPUUtilization", value := 3 }]

/-- Claim C8 as amended: (Timestamp, EndpointName) is unique across the
rows of every table either collector returns; duplicate datapoints for
the same metric/timestamp/endpoint are neither kept-last nor a failure —
the pivot silently combines them into the arithmetic mean of the
duplicate values. -/
theorem claim_C8_unique_keys_mean_duplicates :
    (∀ (client : MetricQuery → Except Err StatisticsResponse)
       (e v : String) (s t p : Int) (out : WideTable) (w : List String),
      _get_endpoint_utilization_metrics client e v s t p = .ok (out, w) →
      (out.rows.map rowKey).Nodup) ∧
    (∀ (client : MetricQuery → Except Err DataResponse)
       (e v : String) (s t p : Int) (out : WideTable) (w : List String),
      _get_endpoint_invocation_metrics client e v s t p = .ok (out, w) →
      (out.rows.map rowKey).Nodup) ∧
    (∀ (data : List MetricRecord) (k : Int × String) (m : String),
      matchingValues data k m ≠ [] →
      ∃ row, row ∈ (pivot_table data).rows ∧ rowKey row = k ∧
        cellValue row m =
          some ((matchingValues data k m).sum / (matchingValues data k m).length)) :=
  ⟨utilization_rows_nodup, invocation_rows_nodup, pivot_mean_of_matching⟩

/-- Witness for the amended C8 at concrete inputs: the duplicate-value
collector output has unique keys, the all-empty invocation output has
unique keys, and the pivot of the two duplicate records carries the mean
cell. -/
theorem claim_C8_unique_keys_mean_duplicates_witness :
    ((({ cols := ["Timestamp", "EndpointName", "CPUUtilization"],
         rows := [{ ts := 0, ep := "ep",
                    cells := [("CPUUtilization", 2)] }] } : WideTable).rows.map rowKey).Nodup) ∧
    ((({ cols := ["Timestamp", "EndpointName"] ++ invocationMetricNames,
         rows := [] } : WideTable).rows.map rowKey).Nodup) ∧
    (∃ row, row ∈ (pivot_table dupRecords).rows ∧ rowKey row = (0, "ep") ∧
      cellValue row "CPUUtilization" =
        some ((matchingValues dupRecords (0, "ep") "CPUUtilization").sum /
          (matchingValues dupRecords (0, "ep") "CPUUtilization").length)) := by
  refine ⟨?_, ?_, ?_⟩
  · refine claim_C8_unique_keys_mean_duplicates.1 dupStatClient "ep" "v" 0 300 60
      { cols := ["Timestamp", "EndpointName", "CPUUtilization"],
        rows := [{ ts := 0, ep := "ep", cells := [("CPUUtilization", 2)] }] } [] ?_
    simp [_get_endpoint_utilization_metrics, collectUtilizationRecords, dupStatClient,
          validateUtilizationDatapoints, validateUtilizationDatapoint, exceptBind_ok,
          pivot_table, pivotKeys, pivotCols, pivotRow, pivotCell, matchingValues, meanOf,
          utilizationMetricNames, utilizationQuery, List.dedup_cons_of_mem,
          List.dedup_cons_of_not_mem, List.dedup_nil, rowKey]
    norm_num
  · exact claim_C8_unique_keys_mean_duplicates.2.1 emptyDataClient "ep" "v" 0 300 60 _ _
      (invocation_empty_of_empty emptyDataClient (fun _ => rfl) "ep" "v" 0 300 60)
  · exact claim_C8_unique_keys_mean_duplicates.2.2 dupRecords (0, "ep") "CPUUtilization"
      (by simp [matchingValues, dupRecords])

theorem keyEq_iff (r s : Row) : keyEq r s = true ↔ rowKey r = rowKey s := by
  simp [keyEq, rowKey, Prod.ext_iff]

theorem mergeOuter_left_key (u v : WideTable) (r : Row) (hru : r ∈ u.rows) :
    rowKey r ∈ (mergeOuter u v).rows.map rowKey := by
  rw [mergeOuter]
  rw [List.map_append]
  apply List.mem_append_left
  apply List.mem_map.mpr
  cases hm : v.rows.filter (fun s => keyEq r s) with
  | nil =>
      refine ⟨r, List.mem_flatMap.mpr ⟨r, hru, ?_⟩, rfl⟩
      simp [hm]
  | cons s ss =>
      refine ⟨combineRows r s, List.mem_flatMap.mpr ⟨r, hru, ?_⟩, rfl⟩
      simp only [hm]
      exact List.mem_map_of_mem _ (List.mem_cons_self s ss)

theorem mergeOuter_mem_keys (u v : WideTable) (k : Int × String) :
    k ∈ (mergeOuter u v).rows.map rowKey ↔
      k ∈ u.rows.map rowKey ∨ k ∈ v.rows.map rowKey := by
  constructor
  · intro hk
    rw [mergeOuter, List.map_append] at hk
    rcases List.mem_append.mp hk with hA | hB
    · obtain ⟨x, hxA, hxk⟩ := List.mem_map.mp hA
      obtain ⟨r, hru, hxr⟩ := List.mem_flatMap.mp hxA
      left
      cases hm : v.rows.filter (fun s => keyEq r s) with
      | nil =>
          rw [hm] at hxr
          simp at hxr
          subst hxr
          exact hxk ▸ List.mem_map_of_mem _ hru
      | cons s ss =>
          rw [hm] at hxr
          obtain ⟨s2, hs2, hx⟩ := List.mem_map.mp hxr
          subst hx
          subst hxk
          have hck : rowKey (combineRows r s2) = rowKey r := rfl
          rw [hck]
          exact List.mem_map_of_mem rowKey hru
    · obtain ⟨x, hxB, hxk⟩ := List.mem_map.mp hB
      right
      exact hxk ▸ List.mem_map_of_mem _ (List.mem_filter.mp hxB).1
  · intro hk
    rcases hk with hu | hv
    · obtain ⟨r, hru, hrk⟩ := List.mem_map.mp hu
      exact hrk ▸ mergeOuter_left_key u v r hru
    · obtain ⟨s, hsv, hsk⟩ := List.mem_map.mp hv
      by_cases hany : u.rows.any (fun r => keyEq r s) = true
      · obtain ⟨r, hru, hkeq⟩ := List.any_eq_true.mp hany
        have hkk : rowKey r = rowKey s := (keyEq_iff r s).mp hkeq
        exact hsk ▸ hkk ▸ mergeOuter_left_key u v r hru
      · subst hsk
        rw [mergeOuter, List.map_append]
        apply List.mem_append_right
        apply List.mem_map_of_mem
        exact List.mem_filter.mpr ⟨hsv, by simp [hany]⟩

theorem mergeOuter_left_only (u v : WideTable) (r : Row) (hru : r ∈ u.rows)
    (hnone : ∀ s ∈ v.rows, rowKey s ≠ rowKey r) :
    r ∈ (mergeOuter u v).rows := by
  have hfil : v.rows.filter (fun s => keyEq r s) = [] := by
    rw [List.filter_eq_nil_iff]
    intro s hs
    simp only [keyEq_iff]
    exact fun hkk => hnone s hs hkk.symm
  rw [mergeOuter]
  apply List.mem_append_left
  exact List.mem_flatMap.mpr ⟨r, hru, by simp [hfil]⟩

theorem mergeOuter_right_only (u v : WideTable) (s : Row) (hsv : s ∈ v.rows)
    (hnone : ∀ r ∈ u.rows, rowKey r ≠ rowKey s) :
    s ∈ (mergeOuter u v).rows := by
  rw [mergeOuter]
  apply List.mem_append_right
  refine List.mem_filter.mpr ⟨hsv, ?_⟩
  simp only [Bool.not_eq_true', List.any_eq_false]
  intro r hr
  simp only [keyEq_iff]
  exact hnone r hr

theorem flatMap_eq_self_of (l : List Row) (f : Row → List Row)
    (h : ∀ r ∈ l, f r = [r]) : l.flatMap f = l := by
  induction l with
  | nil => rfl
  | cons a l ih =>
      rw [List.flatMap_cons, h a (List.mem_cons_self a l),
          ih (fun r hr => h r (List.mem_cons_of_mem a hr))]
      rfl

theorem mergeOuter_length_of_disjoint (u v : WideTable)
    (hd : ∀ r ∈ u.rows, ∀ s ∈ v.rows, rowKey r ≠ rowKey s) :
    (mergeOuter u v).rows.length = u.rows.length + v.rows.length := by
  rw [mergeOuter]
  simp only [List.length_append]
  have hA : (u.rows.flatMap (fun r =>
      match v.rows.filter (fun s => keyEq r s) with
      | [] => [r]
      | ms => ms.map (fun s => combineRows r s))) = u.rows := by
    apply flatMap_eq_self_of
    intro r hr
    have hfil : v.rows.filter (fun s => keyEq r s) = [] := by
      rw [List.filter_eq_nil_iff]
      intro s hs
      simp only [keyEq_iff]
      exact hd r hr s hs
    simp [hfil]
  have hB : v.rows.filter (fun s => !(u.rows.any (fun r => keyEq r s))) = v.rows := by
    rw [List.filter_eq_self]
    intro s hs
    simp only [Bool.not_eq_true', List.any_eq_false]
    intro r hr
    simp only [keyEq_iff]
    exact hd r hr s hs
  rw [hA, hB]

/-- Claim C1: for non-empty inputs the reconciler outer-joins: the
merged key set is exactly the union of the two inputs' key sets; a row
whose key occurs only in one input is carried over unchanged, so the
other input's metric columns are null in it; and with disjoint timestamp
sets the merged table has exactly the sum of the input row counts. -/
theorem claim_C1_outer_join (u v : WideTable)
    (hu : u.rows ≠ []) (hv : v.rows ≠ [])
    (hucells : ∀ r ∈ u.rows, ∀ pr ∈ r.cells, pr.1 ∈ u.cols)
    (hvcells : ∀ s ∈ v.rows, ∀ pr ∈ s.cells, pr.1 ∈ v.cols) :
    (∀ k, k ∈ (reconcile u v).1.rows.map rowKey ↔
      (k ∈ u.rows.map rowKey ∨ k ∈ v.rows.map rowKey)) ∧
    (∀ r ∈ u.rows, (∀ s ∈ v.rows, rowKey s ≠ rowKey r) →
      r ∈ (reconcile u v).1.rows ∧ ∀ c ∈ v.cols, c ∉ u.cols → cellValue r c = none) ∧
    (∀ s ∈ v.rows, (∀ r ∈ u.rows, rowKey r ≠ rowKey s) →
      s ∈ (reconcile u v).1.rows ∧ ∀ c ∈ u.cols, c ∉ v.cols → cellValue s c = none) ∧
    ((∀ r ∈ u.rows, ∀ s ∈ v.rows, r.ts ≠ s.ts) →
      (reconcile u v).1.rows.length = u.rows.length + v.rows.length) := by
  have hrec : (reconcile u v).1 = mergeOuter u v := by
    simp [reconcile, WideTable.isEmpty, List.isEmpty_iff, hu, hv]
  rw [hrec]
  refine ⟨mergeOuter_mem_keys u v, ?_, ?_, ?_⟩
  · intro r hru hnone
    refine ⟨mergeOuter_left_only u v r hru hnone, ?_⟩
    intro c hcv hcnotu
    rw [cellValue]
    have hfind : r.cells.find? (fun pr => pr.1 = c) = none := by
      rw [List.find?_eq_none]
      intro pr hpr
      simp only [decide_eq_true_eq]
      exact fun hpc => hcnotu (hpc ▸ hucells r hru pr hpr)
    rw [hfind]
    rfl
  · intro s hsv hnone
    refine ⟨mergeOuter_right_only u v s hsv hnone, ?_⟩
    intro c hcu hcnotv
    rw [cellValue]
    have hfind : s.cells.find? (fun pr => pr.1 = c) = none := by
      rw [List.find?_eq_none]
      intro pr hpr
      simp only [decide_eq_true_eq]
      exact fun hpc => hcnotv (hpc ▸ hvcells s hsv pr hpr)
    rw [hfind]
    rfl
  · intro hdts
    apply mergeOuter_length_of_disjoint
    intro r hr s hs hkeq
    exact hdts r hr s hs (congrArg Prod.fst hkeq)

/-- Witness for C1 at the concrete one-row tables with disjoint
timestamps: both keys appear in the merged table and the row count is
the sum. -/
theorem claim_C1_outer_join_witness :
    ((60, "ep-1") ∈ (reconcile sampleUtilTable sampleInvTable).1.rows.map rowKey) ∧
    ((120, "ep-1") ∈ (reconcile sampleUtilTable sampleInvTable).1.rows.map rowKey) ∧
    (reconcile sampleUtilTable sampleInvTable).1.rows.length =
      sampleUtilTable.rows.length + sampleInvTable.rows.length := by
  have h := claim_C1_outer_join sampleUtilTable sampleInvTable
    (by simp [sampleUtilTable]) (by simp [sampleInvTable]) (by decide) (by decide)
  exact ⟨(h.1 (60, "ep-1")).mpr (Or.inl (by decide)),
         (h.1 (120, "ep-1")).mpr (Or.inr (by decide)),
         h.2.2.2 (by decide)⟩
